import Mathlib

/-!
Register classification and private-memory offset legalization (Ventus RISC-V).

A shallow embedding of `llvm/lib/Target/RISCV/RISCVRegisterInfo.h`.

* The flag predicates (`hasVGPRs`, `hasSGPRs`, `hasFGPRs`, `isSGPRClass`,
  `isFPRClass`, `isSGPRClassID`, `isDivergentRegClass`) are defined inline in the
  header and are translated from it line by line.
* `adjustPriMemRegOffset` is only declared in the header; its model below is
  written from the specification and is marked as such.
-/

namespace RISCV

/-! ## Data model -/

/-- Flag `IsVGPR = 1 << 0` of `enum RISCVRCFlags`. -/
def IsVGPR : Nat := 1 <<< 0

/-- Flag `IsSGPR = 1 << 1` of `enum RISCVRCFlags`. -/
def IsSGPR : Nat := 1 <<< 1

/-- Flag `IsFGPR = 1 << 2` of `enum RISCVRCFlags`. -/
def IsFGPR : Nat := 1 <<< 2

/-- The part of `TargetRegisterClass` that the header reads: the target-specific
flag field `TSFlags`.  In the program it is an unsigned byte; here it is a natural
number, so the bytes are the values below 256 and every statement proved for all
naturals holds for every byte. -/
structure TargetRegisterClass where
  TSFlags : Nat
  deriving DecidableEq, Repr

/-- The register-information object.  `getRegClass` is inherited from the
generated base class (`RISCVGenRegisterInfo`), which is not part of the header;
the lookup from a class id to its class is therefore a parameter. -/
structure RISCVRegisterInfo where
  getRegClass : Nat → TargetRegisterClass

/-! ## Classification predicates (translated from the header) -/

/-- Source: `return RC->TSFlags & RISCVRCFlags::IsVGPR;`, converted to `bool`. -/
def hasVGPRs (RC : TargetRegisterClass) : Bool :=
  (RC.TSFlags &&& IsVGPR) != 0

/-- Source: `return RC->TSFlags & RISCVRCFlags::IsSGPR;`, converted to `bool`. -/
def hasSGPRs (RC : TargetRegisterClass) : Bool :=
  (RC.TSFlags &&& IsSGPR) != 0

/-- Source: `return RC->TSFlags & RISCVRCFlags::IsFGPR;`, converted to `bool`. -/
def hasFGPRs (RC : TargetRegisterClass) : Bool :=
  (RC.TSFlags &&& IsFGPR) != 0

/-- Source: `return hasSGPRs(RC) && !hasVGPRs(RC) && !hasFGPRs(RC);` -/
def isSGPRClass (RC : TargetRegisterClass) : Bool :=
  hasSGPRs RC && !hasVGPRs RC && !hasFGPRs RC

/-- Source: `return hasFGPRs(RC) && !hasVGPRs(RC) && !hasSGPRs(RC);` -/
def isFPRClass (RC : TargetRegisterClass) : Bool :=
  hasFGPRs RC && !hasVGPRs RC && !hasSGPRs RC

/-- Source: `return isSGPRClass(getRegClass(RCID));` -/
def isSGPRClassID (TRI : RISCVRegisterInfo) (RCID : Nat) : Bool :=
  isSGPRClass (TRI.getRegClass RCID)

/-- Source: `return !isSGPRClass(RC);` (a member function; the object is not used). -/
def isDivergentRegClass (_TRI : RISCVRegisterInfo) (RC : TargetRegisterClass) : Bool :=
  !isSGPRClass RC

/-! ## Semantic categories (worded as in the specification) -/

/-- How many of the three flags vector, scalar and float the class has set. -/
def flagCount (RC : TargetRegisterClass) : Nat :=
  (hasVGPRs RC).toNat + (hasSGPRs RC).toNat + (hasFGPRs RC).toNat

/-- The category "Vector-or-mixed" in the specification's words: the vector flag
is set or at least two flags are set. -/
def specVectorOrMixed (RC : TargetRegisterClass) : Bool :=
  hasVGPRs RC || decide (2 ≤ flagCount RC)

/-- In how many of the three categories Scalar-only (`isSGPRClass`), Float-only
(`isFPRClass`) and Vector-or-mixed (`specVectorOrMixed`) the class falls. -/
def specCategoryCount (RC : TargetRegisterClass) : Nat :=
  (isSGPRClass RC).toNat + (isFPRClass RC).toNat + (specVectorOrMixed RC).toNat

/-! ## Private-memory offset legalization -/

/-- Smallest value of the type `int64_t` of the `offset` argument. -/
def INT64_MIN : Int := -(2 : Int) ^ 63

/-- Largest value of the type `int64_t` of the `offset` argument. -/
def INT64_MAX : Int := (2 : Int) ^ 63 - 1

/-- Whether an integer is a value of `int64_t`. -/
def isInt64 (x : Int) : Bool :=
  decide (INT64_MIN ≤ x ∧ x ≤ INT64_MAX)

/-- Modelled from the spec: the range test for a signed immediate of `B` bits,
`-2^(B-1) ≤ imm < 2^(B-1)`.  The header only names the range ("simm11"); the
helper that tests it is not part of the header. -/
def fitsSImm (B : Nat) (x : Int) : Bool :=
  decide (-(2 : Int) ^ (B - 1) ≤ x ∧ x < (2 : Int) ^ (B - 1))

/-- Modelled from the spec: the remainders that the 11-bit signed immediate field
of a private-memory access can hold, `-1024, -1023, ..., 1023`, in increasing
order.  The header names the field ("simm11") but declares no such table. -/
def simm11Values : List Int :=
  (List.range 2048).map (fun (k : Nat) => Int.ofNat k - 1024)

/-- Result of legalizing one private-memory operand: the amounts of the add
instructions synthesized in front of the instruction, in emission order, and the
immediate left in the rewritten instruction. -/
structure LegalizedAccess where
  adds : List Int
  imm : Int
  deriving DecidableEq, Repr

/-- Modelled from the spec: the body of `adjustPriMemRegOffset`, which the header
declares ("Adjust private memory offset which is supposed to be simm11, when
offset is beyond the range, we need to legalize the offset") but does not define.
The function returns every rewrite that step 3 of the specification's frame-index
elimination allows for the `int64_t` offset.  When the 11-bit signed immediate
field can hold the offset, the only rewrite synthesizes nothing and keeps the
offset as immediate.  Otherwise a rewrite synthesizes one explicit add of
`offset - r` and keeps `r` as immediate, for a representable remainder `r`; the
specification does not say which representable remainder is taken, so each of
them gives one allowed rewrite, provided the amount `offset - r` is itself an
`int64_t` (the subtraction does not overflow).  The empty list stands for the
fault of the specification's error handling, an offset that legalization cannot
represent.  The instruction selection inside `adjustReg`, which materialises the
add, is not described by the specification beyond the value it computes and is
not modelled. -/
def adjustPriMemRegOffset (offset : Int) : List LegalizedAccess :=
  if fitsSImm 11 offset then
    [{ adds := [], imm := offset }]
  else
    (simm11Values.filter (fun r => isInt64 (offset - r))).map
      (fun r => { adds := [offset - r], imm := r })

/-! ## Basic facts about the flag tests -/

theorem and_flag_ne_zero (t i : Nat) : ((t &&& 1 <<< i) != 0) = t.testBit i := by
  rw [Nat.one_shiftLeft, Nat.and_two_pow]
  cases t.testBit i <;> simp

theorem hasVGPRs_eq_testBit (RC : TargetRegisterClass) :
    hasVGPRs RC = RC.TSFlags.testBit 0 :=
  and_flag_ne_zero RC.TSFlags 0

theorem hasSGPRs_eq_testBit (RC : TargetRegisterClass) :
    hasSGPRs RC = RC.TSFlags.testBit 1 :=
  and_flag_ne_zero RC.TSFlags 1

theorem hasFGPRs_eq_testBit (RC : TargetRegisterClass) :
    hasFGPRs RC = RC.TSFlags.testBit 2 :=
  and_flag_ne_zero RC.TSFlags 2

theorem testBit_zero_eq (t : Nat) : t.testBit 0 = decide (t % 8 % 2 = 1) := by
  rw [Nat.testBit_to_div_mod]; congr 1; simp; omega

theorem testBit_one_eq (t : Nat) : t.testBit 1 = decide (t % 8 / 2 % 2 = 1) := by
  rw [Nat.testBit_to_div_mod]; congr 1; simp; omega

theorem testBit_two_eq (t : Nat) : t.testBit 2 = decide (t % 8 / 4 = 1) := by
  rw [Nat.testBit_to_div_mod]; congr 1; simp; omega

theorem hasVGPRs_eq_mod (RC : TargetRegisterClass) :
    hasVGPRs RC = decide (RC.TSFlags % 8 % 2 = 1) := by
  rw [hasVGPRs_eq_testBit, testBit_zero_eq]

theorem hasSGPRs_eq_mod (RC : TargetRegisterClass) :
    hasSGPRs RC = decide (RC.TSFlags % 8 / 2 % 2 = 1) := by
  rw [hasSGPRs_eq_testBit, testBit_one_eq]

theorem hasFGPRs_eq_mod (RC : TargetRegisterClass) :
    hasFGPRs RC = decide (RC.TSFlags % 8 / 4 = 1) := by
  rw [hasFGPRs_eq_testBit, testBit_two_eq]

theorem hasVGPRs_iff_and (RC : TargetRegisterClass) :
    hasVGPRs RC = true ↔ RC.TSFlags &&& IsVGPR ≠ 0 := by
  simp [hasVGPRs]

theorem hasSGPRs_iff_and (RC : TargetRegisterClass) :
    hasSGPRs RC = true ↔ RC.TSFlags &&& IsSGPR ≠ 0 := by
  simp [hasSGPRs]

theorem hasFGPRs_iff_and (RC : TargetRegisterClass) :
    hasFGPRs RC = true ↔ RC.TSFlags &&& IsFGPR ≠ 0 := by
  simp [hasFGPRs]

theorem and_seven_eq_mod (t : Nat) : t &&& 7 = t % 8 :=
  Nat.and_pow_two_sub_one_eq_mod t 3

theorem isSGPRClass_iff_mod (RC : TargetRegisterClass) :
    isSGPRClass RC = true ↔ RC.TSFlags % 8 = 2 := by
  simp only [isSGPRClass, hasVGPRs_eq_mod, hasSGPRs_eq_mod, hasFGPRs_eq_mod]
  have h : RC.TSFlags % 8 < 8 := Nat.mod_lt _ (by decide)
  generalize RC.TSFlags % 8 = m at h ⊢
  interval_cases m <;> decide

theorem isFPRClass_iff_mod (RC : TargetRegisterClass) :
    isFPRClass RC = true ↔ RC.TSFlags % 8 = 4 := by
  simp only [isFPRClass, hasVGPRs_eq_mod, hasSGPRs_eq_mod, hasFGPRs_eq_mod]
  have h : RC.TSFlags % 8 < 8 := Nat.mod_lt _ (by decide)
  generalize RC.TSFlags % 8 = m at h ⊢
  interval_cases m <;> decide

theorem isDivergentRegClass_eq_false_iff (TRI : RISCVRegisterInfo)
    (RC : TargetRegisterClass) :
    isDivergentRegClass TRI RC = false ↔ isSGPRClass RC = true := by
  simp [isDivergentRegClass]

theorem isDivergentRegClass_eq_true_iff (TRI : RISCVRegisterInfo)
    (RC : TargetRegisterClass) :
    isDivergentRegClass TRI RC = true ↔ isSGPRClass RC = false := by
  simp [isDivergentRegClass]

/-! ## Classification: the claims -/

/-- C1: for every register class, `isDivergentRegClass` is true exactly when
`isSGPRClass` is false; in terms of the flag bits, the class is divergent iff it
is not the case that the scalar flag is set while the vector and float flags are
both clear. -/
theorem isDivergentRegClass_iff_not_scalar_only (TRI : RISCVRegisterInfo)
    (RC : TargetRegisterClass) :
    (isDivergentRegClass TRI RC = true ↔ isSGPRClass RC = false) ∧
    (isDivergentRegClass TRI RC = true ↔
      ¬ (RC.TSFlags &&& IsSGPR ≠ 0 ∧ RC.TSFlags &&& IsVGPR = 0 ∧
          RC.TSFlags &&& IsFGPR = 0)) := by
  refine ⟨isDivergentRegClass_eq_true_iff TRI RC, ?_⟩
  rw [isDivergentRegClass_eq_true_iff]
  have hv := hasVGPRs_iff_and RC
  have hs := hasSGPRs_iff_and RC
  have hf := hasFGPRs_iff_and RC
  unfold isSGPRClass
  cases h1 : hasVGPRs RC <;> cases h2 : hasSGPRs RC <;> cases h3 : hasFGPRs RC <;>
    simp_all

/-- C2: for every register class, `isSGPRClass` is the conjunction
`hasSGPRs ∧ ¬hasVGPRs ∧ ¬hasFGPRs`; it is true iff the low three bits of `TSFlags`
are exactly `IsSGPR` (binary 010); and `isSGPRClassID` gives the same answer for
the class that `getRegClass` returns for the id. -/
theorem isSGPRClass_characterisation (TRI : RISCVRegisterInfo)
    (RC : TargetRegisterClass) (RCID : Nat) :
    isSGPRClass RC = (hasSGPRs RC && !hasVGPRs RC && !hasFGPRs RC) ∧
    (isSGPRClass RC = true ↔
      hasSGPRs RC = true ∧ hasVGPRs RC = false ∧ hasFGPRs RC = false) ∧
    (isSGPRClass RC = true ↔ RC.TSFlags &&& 7 = IsSGPR) ∧
    (isSGPRClass RC = true ↔ RC.TSFlags % 8 = 2) ∧
    isSGPRClassID TRI RCID = isSGPRClass (TRI.getRegClass RCID) := by
  refine ⟨rfl, ?_, ?_, isSGPRClass_iff_mod RC, rfl⟩
  · unfold isSGPRClass
    cases hasVGPRs RC <;> cases hasSGPRs RC <;> cases hasFGPRs RC <;> simp
  · rw [and_seven_eq_mod, isSGPRClass_iff_mod]
    exact Iff.rfl

/-- C3: for every register class, `isFPRClass` is the conjunction
`hasFGPRs ∧ ¬hasVGPRs ∧ ¬hasSGPRs`; it is true iff the low three bits of `TSFlags`
are exactly `IsFGPR` (binary 100). -/
theorem isFPRClass_characterisation (RC : TargetRegisterClass) :
    isFPRClass RC = (hasFGPRs RC && !hasVGPRs RC && !hasSGPRs RC) ∧
    (isFPRClass RC = true ↔
      hasFGPRs RC = true ∧ hasVGPRs RC = false ∧ hasSGPRs RC = false) ∧
    (isFPRClass RC = true ↔ RC.TSFlags &&& 7 = IsFGPR) ∧
    (isFPRClass RC = true ↔ RC.TSFlags % 8 = 4) := by
  refine ⟨rfl, ?_, ?_, isFPRClass_iff_mod RC⟩
  · unfold isFPRClass
    cases hasVGPRs RC <;> cases hasSGPRs RC <;> cases hasFGPRs RC <;> simp
  · rw [and_seven_eq_mod, isFPRClass_iff_mod]
    exact Iff.rfl

/-- C4: for every register class (every flag combination), `isSGPRClass` and
`isFPRClass` are never both true. -/
theorem isSGPRClass_isFPRClass_exclusive (RC : TargetRegisterClass) :
    ¬ (isSGPRClass RC = true ∧ isFPRClass RC = true) := by
  unfold isSGPRClass isFPRClass
  cases hasVGPRs RC <;> cases hasSGPRs RC <;> cases hasFGPRs RC <;> simp

/-- C5: `hasVGPRs`, `hasSGPRs` and `hasFGPRs` test bit 0, bit 1 and bit 2 of
`TSFlags` respectively; two classes get the same answer from one of them exactly
when they agree on that one bit, whatever their other bits are; the three answers
together coincide exactly when the low three bits coincide, and each of the 8
combinations of answers is produced by some class. -/
theorem has_flags_single_bit_tests (RC RC' : TargetRegisterClass) :
    (hasVGPRs RC = RC.TSFlags.testBit 0 ∧ hasSGPRs RC = RC.TSFlags.testBit 1 ∧
      hasFGPRs RC = RC.TSFlags.testBit 2) ∧
    (hasVGPRs RC = hasVGPRs RC' ↔ RC.TSFlags.testBit 0 = RC'.TSFlags.testBit 0) ∧
    (hasSGPRs RC = hasSGPRs RC' ↔ RC.TSFlags.testBit 1 = RC'.TSFlags.testBit 1) ∧
    (hasFGPRs RC = hasFGPRs RC' ↔ RC.TSFlags.testBit 2 = RC'.TSFlags.testBit 2) ∧
    ((hasVGPRs RC = hasVGPRs RC' ∧ hasSGPRs RC = hasSGPRs RC' ∧
        hasFGPRs RC = hasFGPRs RC') ↔ RC.TSFlags % 8 = RC'.TSFlags % 8) ∧
    (∀ v s f : Bool, ∃ C : TargetRegisterClass, C.TSFlags < 8 ∧
        hasVGPRs C = v ∧ hasSGPRs C = s ∧ hasFGPRs C = f) := by
  refine ⟨⟨hasVGPRs_eq_testBit RC, hasSGPRs_eq_testBit RC, hasFGPRs_eq_testBit RC⟩,
    ?_, ?_, ?_, ?_, ?_⟩
  · rw [hasVGPRs_eq_testBit, hasVGPRs_eq_testBit]
  · rw [hasSGPRs_eq_testBit, hasSGPRs_eq_testBit]
  · rw [hasFGPRs_eq_testBit, hasFGPRs_eq_testBit]
  · simp only [hasVGPRs_eq_mod, hasSGPRs_eq_mod, hasFGPRs_eq_mod]
    have h : RC.TSFlags % 8 < 8 := Nat.mod_lt _ (by decide)
    have h' : RC'.TSFlags % 8 < 8 := Nat.mod_lt _ (by decide)
    generalize RC.TSFlags % 8 = m at h ⊢
    generalize RC'.TSFlags % 8 = n at h' ⊢
    interval_cases m <;> interval_cases n <;> decide
  · intro v s f
    refine ⟨⟨v.toNat + 2 * s.toNat + 4 * f.toNat⟩, ?_, ?_, ?_, ?_⟩ <;>
      cases v <;> cases s <;> cases f <;> decide

/-- C6: a register class with both the vector flag and the scalar flag set is
divergent and is not an SGPR class, whatever its float flag. -/
theorem vector_and_scalar_is_divergent (TRI : RISCVRegisterInfo)
    (RC : TargetRegisterClass) (hV : RC.TSFlags &&& IsVGPR ≠ 0)
    (hS : RC.TSFlags &&& IsSGPR ≠ 0) :
    isDivergentRegClass TRI RC = true ∧ isSGPRClass RC = false := by
  have hv : hasVGPRs RC = true := (hasVGPRs_iff_and RC).2 hV
  have _hs : hasSGPRs RC = true := (hasSGPRs_iff_and RC).2 hS
  have h : isSGPRClass RC = false := by
    unfold isSGPRClass
    rw [hv]
    simp
  exact ⟨(isDivergentRegClass_eq_true_iff TRI RC).2 h, h⟩

/-- Witness for C6: the classes with flags 011 and 111. -/
theorem vector_and_scalar_is_divergent_witness :
    ((3 : Nat) &&& IsVGPR ≠ 0 ∧ (3 : Nat) &&& IsSGPR ≠ 0 ∧
      isDivergentRegClass ⟨fun _ => ⟨0⟩⟩ ⟨3⟩ = true ∧ isSGPRClass ⟨3⟩ = false) ∧
    ((7 : Nat) &&& IsVGPR ≠ 0 ∧ (7 : Nat) &&& IsSGPR ≠ 0 ∧
      isDivergentRegClass ⟨fun _ => ⟨0⟩⟩ ⟨7⟩ = true ∧ isSGPRClass ⟨7⟩ = false) :=
  ⟨⟨by decide, by decide,
      vector_and_scalar_is_divergent ⟨fun _ => ⟨0⟩⟩ ⟨3⟩ (by decide) (by decide)⟩,
    ⟨by decide, by decide,
      vector_and_scalar_is_divergent ⟨fun _ => ⟨0⟩⟩ ⟨7⟩ (by decide) (by decide)⟩⟩

/-- C10: every class for which `isFPRClass` holds and every class with none of the
three flags set is divergent; `isDivergentRegClass` is false only when the low
three bits of `TSFlags` are `IsSGPR` alone. -/
theorem divergent_unless_scalar_only (TRI : RISCVRegisterInfo)
    (RC : TargetRegisterClass) :
    (isFPRClass RC = true → isDivergentRegClass TRI RC = true) ∧
    (hasVGPRs RC = false ∧ hasSGPRs RC = false ∧ hasFGPRs RC = false →
      isDivergentRegClass TRI RC = true) ∧
    (isDivergentRegClass TRI RC = false ↔ RC.TSFlags &&& 7 = IsSGPR) := by
  refine ⟨?_, ?_, ?_⟩
  · rw [isDivergentRegClass_eq_true_iff]
    unfold isFPRClass isSGPRClass
    cases hasVGPRs RC <;> cases hasSGPRs RC <;> cases hasFGPRs RC <;> simp
  · rintro ⟨_, hs, _⟩
    rw [isDivergentRegClass_eq_true_iff]
    unfold isSGPRClass
    rw [hs]
    rfl
  · rw [isDivergentRegClass_eq_false_iff, and_seven_eq_mod, isSGPRClass_iff_mod]
    exact Iff.rfl

/-- Witness for C10: the float-only class (flags 100) and the class with no flag. -/
theorem divergent_unless_scalar_only_witness :
    (isFPRClass ⟨4⟩ = true ∧ isDivergentRegClass ⟨fun _ => ⟨0⟩⟩ ⟨4⟩ = true) ∧
    ((hasVGPRs ⟨0⟩ = false ∧ hasSGPRs ⟨0⟩ = false ∧ hasFGPRs ⟨0⟩ = false) ∧
      isDivergentRegClass ⟨fun _ => ⟨0⟩⟩ ⟨0⟩ = true) :=
  ⟨⟨by decide, (divergent_unless_scalar_only ⟨fun _ => ⟨0⟩⟩ ⟨4⟩).1 (by decide)⟩,
    ⟨by decide, (divergent_unless_scalar_only ⟨fun _ => ⟨0⟩⟩ ⟨0⟩).2.1 (by decide)⟩⟩

/-- C7 (as stated) fails for the class with no flag set: it is not an SGPR class,
not an FPR class, has no vector flag and fewer than two flags, so it falls in none
of the three categories. -/
theorem no_flag_class_in_no_category :
    isSGPRClass ⟨0⟩ = false ∧ isFPRClass ⟨0⟩ = false ∧ hasVGPRs ⟨0⟩ = false ∧
    flagCount ⟨0⟩ = 0 ∧ specVectorOrMixed ⟨0⟩ = false ∧ specCategoryCount ⟨0⟩ ≠ 1 := by
  decide

/-- C7 (amended): a flag combination falls in exactly one of the categories
Scalar-only, Float-only, Vector-or-mixed iff at least one flag is set, and in none
of them iff no flag is set; no combination falls in two.  With "divergent and not
Float-only" in place of Vector-or-mixed, every combination falls in exactly one
category. -/
theorem category_count_by_flags (TRI : RISCVRegisterInfo) (RC : TargetRegisterClass) :
    (specCategoryCount RC = 1 ↔
      (hasVGPRs RC || hasSGPRs RC || hasFGPRs RC) = true) ∧
    (specCategoryCount RC = 0 ↔
      hasVGPRs RC = false ∧ hasSGPRs RC = false ∧ hasFGPRs RC = false) ∧
    specCategoryCount RC ≤ 1 ∧
    (isSGPRClass RC).toNat + (isFPRClass RC).toNat +
      (isDivergentRegClass TRI RC && !isFPRClass RC).toNat = 1 := by
  unfold specCategoryCount specVectorOrMixed flagCount isDivergentRegClass isFPRClass
    isSGPRClass
  cases hasVGPRs RC <;> cases hasSGPRs RC <;> cases hasFGPRs RC <;> decide

/-! ## Offset legalization: the claims -/

theorem fitsSImm_eleven (x : Int) : fitsSImm 11 x = true ↔ -1024 ≤ x ∧ x < 1024 := by
  simp [fitsSImm]

theorem isInt64_iff (x : Int) :
    isInt64 x = true ↔ -9223372036854775808 ≤ x ∧ x ≤ 9223372036854775807 := by
  simp [isInt64, INT64_MIN, INT64_MAX]

theorem mem_simm11Values (r : Int) : r ∈ simm11Values ↔ -1024 ≤ r ∧ r < 1024 := by
  unfold simm11Values
  simp only [List.mem_map, List.mem_range]
  constructor
  · rintro ⟨k, hk, rfl⟩
    simp only [Int.ofNat_eq_coe]
    omega
  · intro h
    refine ⟨(r + 1024).toNat, by omega, ?_⟩
    simp only [Int.ofNat_eq_coe]
    omega

theorem mem_adjustPriMemRegOffset (O : Int) (res : LegalizedAccess) :
    res ∈ adjustPriMemRegOffset O ↔
      (fitsSImm 11 O = true ∧ res = ⟨[], O⟩) ∨
      (fitsSImm 11 O = false ∧ ∃ r : Int, (-1024 ≤ r ∧ r < 1024) ∧
        isInt64 (O - r) = true ∧ res = ⟨[O - r], r⟩) := by
  unfold adjustPriMemRegOffset
  cases h : fitsSImm 11 O
  · simp only [Bool.false_eq_true, if_false, List.mem_map, List.mem_filter,
      mem_simm11Values, false_and, false_or, true_and]
    constructor
    · rintro ⟨r, ⟨hr, hi⟩, rfl⟩
      exact ⟨r, hr, hi, rfl⟩
    · rintro ⟨r, hr, hi, rfl⟩
      exact ⟨r, ⟨hr, hi⟩, rfl⟩
  · simp

theorem zero_remainder_mem (O : Int) (hO : isInt64 O = true)
    (hfit : fitsSImm 11 O = false) :
    (⟨[O], 0⟩ : LegalizedAccess) ∈ adjustPriMemRegOffset O := by
  rw [mem_adjustPriMemRegOffset]
  refine Or.inr ⟨hfit, 0, by omega, ?_, ?_⟩
  · simpa using hO
  · simp

theorem adjustPriMemRegOffset_ne_nil (O : Int) (hO : isInt64 O = true) :
    adjustPriMemRegOffset O ≠ [] := by
  cases hfit : fitsSImm 11 O
  · exact List.ne_nil_of_mem (zero_remainder_mem O hO hfit)
  · simp [adjustPriMemRegOffset, hfit]

theorem adjustPriMemRegOffset_sound (O : Int) (res : LegalizedAccess)
    (h : res ∈ adjustPriMemRegOffset O) :
    (-1024 ≤ res.imm ∧ res.imm < 1024) ∧ res.adds.sum + res.imm = O ∧
    (∀ a ∈ res.adds, isInt64 a = true ∧ a ≠ 0) ∧
    (res.adds.length = if fitsSImm 11 O then 0 else 1) := by
  rw [mem_adjustPriMemRegOffset] at h
  rcases h with ⟨hfit, rfl⟩ | ⟨hfit, r, hr, hi, rfl⟩
  · have ho := (fitsSImm_eleven O).1 hfit
    simp [hfit, ho.1, ho.2]
  · have hne : O - r ≠ 0 := by
      intro h0
      have hOr : O = r := by omega
      rw [hOr, (fitsSImm_eleven r).2 hr] at hfit
      exact Bool.noConfusion hfit
    simp [hfit, hr.1, hr.2, hi, hne]

/-- C8: for every private-memory offset `O` (a value of `int64_t`) legalization
produces a rewrite, and in every rewrite it can produce the immediate left in the
instruction satisfies `-2^10 ≤ imm < 2^10`, the synthesized amount plus that
immediate is `O` exactly, and each synthesized amount is a nonzero `int64_t`; for
`O = 4096` every rewrite synthesizes exactly one add and its amount plus the
remainder immediate is 4096. -/
theorem adjustPriMemRegOffset_legal (O : Int) (hO : isInt64 O = true) :
    adjustPriMemRegOffset O ≠ [] ∧
    (∀ res ∈ adjustPriMemRegOffset O,
      (-(2 : Int) ^ 10 ≤ res.imm ∧ res.imm < (2 : Int) ^ 10) ∧
      res.adds.sum + res.imm = O ∧
      (∀ a ∈ res.adds, isInt64 a = true ∧ a ≠ 0) ∧
      res.adds.length ≤ 1) ∧
    adjustPriMemRegOffset 4096 ≠ [] ∧
    (∀ res ∈ adjustPriMemRegOffset 4096,
      res.adds.length = 1 ∧ res.adds.sum + res.imm = 4096 ∧
      (-(2 : Int) ^ 10 ≤ res.imm ∧ res.imm < (2 : Int) ^ 10)) := by
  refine ⟨adjustPriMemRegOffset_ne_nil O hO, ?_,
    adjustPriMemRegOffset_ne_nil 4096 (by decide), ?_⟩
  · intro res hres
    obtain ⟨hr, hs, ha, hl⟩ := adjustPriMemRegOffset_sound O res hres
    refine ⟨by norm_num; exact hr, hs, ha, ?_⟩
    rw [hl]
    split <;> decide
  · intro res hres
    obtain ⟨hr, hs, _, hl⟩ := adjustPriMemRegOffset_sound 4096 res hres
    have h4096 : fitsSImm 11 4096 = false := by decide
    rw [h4096] at hl
    exact ⟨by simpa using hl, hs, by norm_num; exact hr⟩

/-- Witness for C8: the offsets 5000 and -3000, the largest `int64_t`, and members
of the rewrites allowed at 4096. -/
theorem adjustPriMemRegOffset_legal_witness :
    isInt64 5000 = true ∧ adjustPriMemRegOffset 5000 ≠ [] ∧
    isInt64 (-3000) = true ∧ adjustPriMemRegOffset (-3000) ≠ [] ∧
    isInt64 INT64_MAX = true ∧ adjustPriMemRegOffset INT64_MAX ≠ [] ∧
    ((⟨[4096], 0⟩ : LegalizedAccess) ∈ adjustPriMemRegOffset 4096 ∧
      (⟨[4096], 0⟩ : LegalizedAccess).adds.length = 1) ∧
    (⟨[3073], 1023⟩ : LegalizedAccess) ∈ adjustPriMemRegOffset 4096 ∧
    (⟨[5120], -1024⟩ : LegalizedAccess) ∈ adjustPriMemRegOffset 4096 :=
  ⟨by decide, (adjustPriMemRegOffset_legal 5000 (by decide)).1,
    by decide, (adjustPriMemRegOffset_legal (-3000) (by decide)).1,
    by decide, (adjustPriMemRegOffset_legal INT64_MAX (by decide)).1,
    ⟨zero_remainder_mem 4096 (by decide) (by decide),
      ((adjustPriMemRegOffset_legal 4096 (by decide)).2.2.2 ⟨[4096], 0⟩
        (zero_remainder_mem 4096 (by decide) (by decide))).1⟩,
    (mem_adjustPriMemRegOffset 4096 _).2
      (Or.inr ⟨by decide, 1023, by decide, by decide, by decide⟩),
    (mem_adjustPriMemRegOffset 4096 _).2
      (Or.inr ⟨by decide, -1024, by decide, by decide, by decide⟩)⟩

end RISCV
